import Mathlib

/-!
Verification of the client runtime of the records-management dashboard:
the `ApiService` request gateway (`static/js/services/api-service.js`),
the hash `Router` (`static/js/router.js`), the `BaseComponent` lifecycle
(`static/js/components/base-component.js`), the `Validators` utility
(`static/js/utils/validators.js`) and the registration / vital-signs form
handlers that consume them.

Each JavaScript function is shallowly embedded as an executable Lean
definition.  JavaScript `null`/`undefined` is `Option.none`; string
truthiness (`!!s`) is `s ≠ ""`; `localStorage` is carried explicitly as
the `storage` field of the gateway state; the outcome of `fetch` (which
the gateway cannot influence) is an explicit `Transport` value.
-/

/-! ## JavaScript string helpers -/

/-- JavaScript single-character `String.prototype.split`: splitting `[]`
yields `[[]]`, separators at the ends yield empty fragments. -/
def splitOnChar (c : Char) : List Char → List (List Char)
  | [] => [[]]
  | x :: xs =>
    match splitOnChar c xs, decide (x = c) with
    | r, true => [] :: r
    | [], false => [[x]]
    | y :: ys, false => (x :: y) :: ys

/-- `s.split(c)` for a one-character separator. -/
def jsSplit (s : String) (c : Char) : List String :=
  (splitOnChar c s.data).map String.mk

/-- `String.prototype.trim`: strip leading and trailing whitespace. -/
def jsTrim (s : String) : String :=
  String.mk (((s.data.dropWhile Char.isWhitespace).reverse.dropWhile
    Char.isWhitespace).reverse)

/-- JavaScript string truthiness `!!s` for a nullable string:
`null`/`undefined` and `""` are falsy. -/
def jsTruthyStr : Option String → Bool
  | none => false
  | some s => s != ""

/-! ## ApiService (static/js/services/api-service.js)

The gateway instance is the pair of its in-memory `token` field and the
durable `localStorage` entry under the key `'token'` (`storage`). -/

structure ApiState where
  token : Option String
  storage : Option String
deriving Repr, DecidableEq

/-- `setToken(token)`: store the token in memory and, when truthy, in
durable storage; a falsy token (`null` or `""`) removes the stored key. -/
def ApiService.setToken (st : ApiState) (token : Option String) : ApiState :=
  match token with
  | some v => if v = "" then { token := some v, storage := none }
    else { token := some v, storage := some v }
  | none => { token := none, storage := none }

/-- `getToken()`. -/
def ApiService.getToken (st : ApiState) : Option String :=
  st.token

/-- `isAuthenticated()`: `!!this.token`. -/
def ApiService.isAuthenticated (st : ApiState) : Bool :=
  match st.token with
  | none => false
  | some v => v != ""

/-- `clearAuth()`: null the in-memory token and remove the stored key. -/
def ApiService.clearAuth (st : ApiState) : ApiState :=
  { token := none, storage := none }

/-- `logout()`: delegates to `clearAuth`. -/
def ApiService.logout (st : ApiState) : ApiState :=
  ApiService.clearAuth st

/-- The constructor of a fresh gateway instance:
`this.token = localStorage.getItem('token') || null` (an absent key reads
as `null`; an empty stored string is falsy and also yields `null`). -/
def ApiService.freshInstance (storage : Option String) : ApiState :=
  { token := match storage with
      | some v => if v = "" then none else some v
      | none => none,
    storage := storage }

/-! ### `request(endpoint, options)`

The body of `request` is a `try`/`catch` around `fetch` and
`response.json()`.  Everything the remote side and the network decide is
modelled by a `Transport` value: the fetch itself may throw, the body
parse may throw, or a parsed response with an HTTP status arrives. -/

/-- A parsed JSON error body as the remote service sends it: an optional
`error` string and an optional field-keyed `errors` map. -/
structure RemoteBody where
  error : Option String
  errors : List (String × String)
deriving Repr, DecidableEq

/-- Outcome of the transport layer for one call, outside the gateway's
control. -/
inductive Transport where
  | netError (msg : String)
  | parseError (msg : String)
  | response (ok : Bool) (status : Nat) (body : RemoteBody)
deriving Repr, DecidableEq

/-- The value `request` returns: `{success, data?, error?}`. -/
structure RequestResult where
  success : Bool
  data : Option RemoteBody
  error : Option String
deriving Repr, DecidableEq

/-- The message of the `Error` thrown on a non-ok status:
`data.error || 'HTTP ' + response.status` (an absent or empty
`data.error` is falsy). -/
def httpErrorMessage (status : Nat) (body : RemoteBody) : String :=
  match body.error with
  | some e => if e = "" then "HTTP " ++ toString status else e
  | none => "HTTP " ++ toString status

/-- `request`: `try { response = await fetch(...); data = await
response.json(); if (!response.ok) throw new Error(data.error || ...);
return {success: true, data}; } catch (error) { return {success: false,
error: error.message}; }`. -/
def ApiService.request : Transport → RequestResult
  | .netError m => { success := false, data := none, error := some m }
  | .parseError m => { success := false, data := none, error := some m }
  | .response ok status body =>
    if ok then { success := true, data := some body, error := none }
    else { success := false, data := none, error := some (httpErrorMessage status body) }

/-! ## Router (static/js/router.js)

`handleRoute` reads `window.location.hash.slice(1)`; that sliced string
is the model's input.  The route table is the set of registered paths
(the handlers' identities do not matter, only which one fires), and the
observable outcome of one resolution step is a `RouteAction`. -/

/-- What one `handleRoute` resolution does: force a navigation
(`this.navigate(...)`, leaving the handler table untouched), invoke the
callback registered under `routePath` with the extra segments, or do
nothing because no handler (and no `/404` fallback) exists. -/
inductive RouteAction where
  | forceNavigate (path : String)
  | invoked (routePath : String) (params : List String)
  | noHandler
deriving Repr, DecidableEq

/-- `const publicRoutes = ['', 'login', 'register']`. -/
def publicRoutes : List String :=
  ["", "login", "register"]

/-- The parsing prefix of `handleRoute`:
`const hash = window.location.hash.slice(1) || '/';`
`const [pathPart] = hash.split('?');`
`const [path, ...params] = pathPart.split('/').filter(Boolean);`
returns the primary segment (`undefined` = `none` when every segment is
empty) and the trailing segments. -/
def Router.parsePath (slicedHash : String) : Option String × List String :=
  let hash := if slicedHash = "" then "/" else slicedHash
  let pathPart := (jsSplit hash '?').headD ""
  let segs := (jsSplit pathPart '/').filter (fun s => s != "")
  (segs.head?, segs.tail)

/-- The decision core of `handleRoute` after parsing: the guard clauses,
then `const handler = this.routes[routePath] || this.routes['/404']`. -/
def Router.resolve (routes : List String) (authed : Bool)
    (path : Option String) (params : List String) : RouteAction :=
  let isPublicRoute := match path with
    | some s => decide (s ∈ publicRoutes)
    | none => false
  if !isPublicRoute && !authed then .forceNavigate "/login"
  else if isPublicRoute && authed && path != some "register" then .forceNavigate "/dashboard"
  else
    let routePath := "/" ++ path.getD ""
    if routePath ∈ routes then .invoked routePath params
    else if "/404" ∈ routes then .invoked "/404" params
    else .noHandler

/-- `handleRoute()` for a given route table, gateway state and
`location.hash.slice(1)` value. -/
def Router.handleRoute (routes : List String) (api : ApiState)
    (slicedHash : String) : RouteAction :=
  Router.resolve routes (ApiService.isAuthenticated api)
    (Router.parsePath slicedHash).1 (Router.parsePath slicedHash).2

/-- The route table the application registers at startup (app.js):
`/`, `/login`, `/dashboard`, `/patients`, `/404`. -/
def appRoutes : List String :=
  ["/", "/login", "/dashboard", "/patients", "/404"]

/-- The `routePath` key — `'/' + (path || '')` — that `handleRoute`
looks up in the route table for a given location. -/
def Router.routePathOf (slicedHash : String) : String :=
  "/" ++ ((Router.parsePath slicedHash).1.getD "")

/-! ## BaseComponent (static/js/components/base-component.js)

A component instance is its private state object `_state` (a map from
string keys to values), its rendered shadow subtree (absent before the
first render), and a log of the lifecycle calls it has made.  `render`
is the concrete subclass's pure view function: the source contract is
that `render()` recomputes the whole subtree from the current state, so
it is modelled as a function of the state that overwrites `shadow`. -/

/-- A component state object: string keys to values of type `V`. -/
def StateMap (V : Type) : Type :=
  String → Option V

/-- JavaScript object spread `{...state, ...newState}`: keys present in
the partial win, all other keys keep their old value. -/
def mergeState {V : Type} (state newState : StateMap V) : StateMap V :=
  fun k => match newState k with
    | some v => some v
    | none => state k

/-- The observable calls `BaseComponent` makes into subclass hooks and
the DOM. -/
inductive CompEvent (V : Type) where
  | stateChange (oldState newState : StateMap V)
  | rendered
  | listenersAttached
  | cleanedUp

/-- One component instance. -/
structure Inst (V O : Type) where
  state : StateMap V
  shadow : Option O
  log : List (CompEvent V)

/-- A freshly constructed instance: `this._state = {}`, nothing rendered
yet. -/
def BaseComponent.newInstance {V O : Type} : Inst V O :=
  { state := fun _ => none, shadow := none, log := [] }

/-- `getState()`: `{ ...this._state }` — a copy of the state. -/
def BaseComponent.getState {V O : Type} (i : Inst V O) : StateMap V :=
  i.state

/-- `setState(newState)`: shallow-merge, call `onStateChange(old, new)`,
re-render the whole subtree, re-attach the event listeners.  There is no
mounted-state guard anywhere in this method. -/
def BaseComponent.setState {V O : Type} (render : StateMap V → O)
    (i : Inst V O) (newState : StateMap V) : Inst V O :=
  let oldState := i.state
  let merged := mergeState i.state newState
  { state := merged,
    shadow := some (render merged),
    log := i.log ++ [CompEvent.stateChange oldState merged,
      CompEvent.rendered, CompEvent.listenersAttached] }

/-- `connectedCallback()`: first render plus listener attachment. -/
def BaseComponent.connectedCallback {V O : Type} (render : StateMap V → O)
    (i : Inst V O) : Inst V O :=
  { i with
    shadow := some (render i.state),
    log := i.log ++ [CompEvent.rendered, CompEvent.listenersAttached] }

/-- `disconnectedCallback()`: calls `cleanup()` and nothing else — state
and shadow are left in place and no flag is set. -/
def BaseComponent.disconnectedCallback {V O : Type} (i : Inst V O) : Inst V O :=
  { i with log := i.log ++ [CompEvent.cleanedUp] }

/-! ## Validators (static/js/utils/validators.js) -/

/-- The `{valid, error?}` object every single-field validator returns. -/
structure VResult where
  valid : Bool
  error : Option String
deriving Repr, DecidableEq

/-- `validateRequired(value, fieldName)` for a string value:
`!value || !value.trim()`. -/
def Validators.validateRequired (value fieldName : String) : VResult :=
  if value = "" ∨ jsTrim value = "" then
    { valid := false, error := some (fieldName ++ " is required") }
  else
    { valid := true, error := none }

/-- A character matched by `[a-zA-Z0-9_-]` (the username class). -/
def isUsernameChar (c : Char) : Bool :=
  c.isAlpha || c.isDigit || c = '_' || c = '-'

/-- `usernameRegex.test(s)` for `/^[a-zA-Z0-9_-]{3,80}$/`. -/
def usernameRegexTest (s : String) : Bool :=
  decide (3 ≤ s.length) && decide (s.length ≤ 80) && s.data.all isUsernameChar

/-- A character matched by `[a-zA-Z0-9._%+-]` (the email local part). -/
def emailLocalChar (c : Char) : Bool :=
  c.isAlpha || c.isDigit || c = '.' || c = '_' || c = '%' || c = '+' || c = '-'

/-- A character matched by `[a-zA-Z0-9.-]` (the email domain part). -/
def emailDomainChar (c : Char) : Bool :=
  c.isAlpha || c.isDigit || c = '.' || c = '-'

/-- The `[a-zA-Z0-9.-]+\.[a-zA-Z]{2,}$` tail of the email regex: the
fragment after the last dot is two or more letters and what precedes
that dot is a nonempty run of domain characters. -/
def emailDomainTest (d : String) : Bool :=
  match (splitOnChar '.' d.data).reverse with
  | tld :: pre :: rest =>
    let prefixPart := List.intercalate ['.'] (pre :: rest).reverse
    decide (2 ≤ tld.length) && tld.all Char.isAlpha &&
      !prefixPart.isEmpty && prefixPart.all emailDomainChar
  | _ => false

/-- `emailRegex.test(s)` for
`/^[a-zA-Z0-9._%+-]+@[a-zA-Z0-9.-]+\.[a-zA-Z]{2,}$/`: the local and
domain classes exclude `@`, so a match is exactly one `@` with a valid
local part and domain on either side. -/
def emailRegexTest (s : String) : Bool :=
  match jsSplit s '@' with
  | [localPart, domain] =>
    !localPart.isEmpty && localPart.data.all emailLocalChar && emailDomainTest domain
  | _ => false

/-- `validateEmail(email, required)`. -/
def Validators.validateEmail (email : String) (required : Bool) : VResult :=
  if email = "" ∨ jsTrim email = "" then
    if required then { valid := false, error := some "Email is required" }
    else { valid := true, error := none }
  else if email.length > 120 then
    { valid := false, error := some "Email must not exceed 120 characters" }
  else if !emailRegexTest email then
    { valid := false, error := some "Invalid email format" }
  else
    { valid := true, error := none }

/-- `validateUsername(username)`. -/
def Validators.validateUsername (username : String) : VResult :=
  let req := Validators.validateRequired username "Username"
  if !req.valid then req
  else if username.length < 3 then
    { valid := false, error := some "Username must be at least 3 characters" }
  else if username.length > 80 then
    { valid := false, error := some "Username must not exceed 80 characters" }
  else if !usernameRegexTest username then
    { valid := false,
      error := some "Username can only contain letters, numbers, underscores, and hyphens" }
  else
    { valid := true, error := none }

/-- A character matched by the password special-character class
`[!@#$%^&*()_+\-=\[\]{}|;:,.<>?]` (braces written via their codes). -/
def isSpecialChar (c : Char) : Bool :=
  "!@#$%^&*()_+-=[]|;:,.<>?".data.contains c ||
    c = Char.ofNat 123 || c = Char.ofNat 125

/-- `validatePassword(password)`: required, then the two length bounds,
then the four character-class requirements. -/
def Validators.validatePassword (password : String) : VResult :=
  let req := Validators.validateRequired password "Password"
  if !req.valid then req
  else if password.length < 8 then
    { valid := false, error := some "Password must be at least 8 characters" }
  else if password.length > 128 then
    { valid := false, error := some "Password must not exceed 128 characters" }
  else
    let hasUpper := password.data.any Char.isUpper
    let hasLower := password.data.any Char.isLower
    let hasDigit := password.data.any Char.isDigit
    let hasSpecial := password.data.any isSpecialChar
    if !hasUpper || !hasLower || !hasDigit || !hasSpecial then
      { valid := false,
        error := some "Password must contain uppercase, lowercase, digit, and special character" }
    else
      { valid := true, error := none }

/-! ## LoginComponent registration flow
(static/js/components/login-component.js)

`handleSubmit` reads and trims the username, reads the raw password, and
rejects empty values before branching; `handleRegister` then trims the
email and runs the local validators in order, returning on the first
failure (each failure is a `setState({error})`, i.e. no network call).
Only when every local check passes does `apiService.register` run. -/

/-- The observable outcome of one registration submission, up to the
point where the network would be used: either a local validation error
shown via `setState` (no network call), or the `apiService.register`
call with the values it would send. -/
inductive RegisterOutcome where
  | localError (msg : String)
  | networkRegister (username email password : String)
deriving Repr, DecidableEq

/-- `handleRegister(username, password)` with the email and
confirm-password field values it reads from the form (the `Validators`
module is loaded). -/
def LoginComponent.handleRegister (username password emailField confirmPassword : String) :
    RegisterOutcome :=
  let email := jsTrim emailField
  if email = "" then .localError "Email is required"
  else
    let uv := Validators.validateUsername username
    if !uv.valid then .localError (uv.error.getD "")
    else
      let ev := Validators.validateEmail email true
      if !ev.valid then .localError (ev.error.getD "")
      else
        let pv := Validators.validatePassword password
        if !pv.valid then .localError (pv.error.getD "")
        else if password ≠ confirmPassword then .localError "Passwords do not match"
        else .networkRegister username email password

/-- `handleSubmit` in register mode: trim the username, check both
fields nonempty, then `handleRegister`. -/
def LoginComponent.submitRegister (usernameField passwordField emailField confirmField : String) :
    RegisterOutcome :=
  let username := jsTrim usernameField
  let password := passwordField
  if username = "" ∨ password = "" then .localError "Please fill in all fields"
  else LoginComponent.handleRegister username password emailField confirmField

/-! ## Vital-signs validation (static/js/utils/validators.js)

The vital-signs form (`vital-signs.js`) builds `vitalData` with each
measurement field either `null` or a `parseInt`/`parseFloat` number, and
older callers may pass the raw strings; a field value is therefore a
JavaScript value `null | string | number`.  Numbers are modelled as
rationals (the concrete values are small decimals, exactly
representable). -/

/-- A JavaScript value as stored in a `vitalData` measurement field. -/
inductive JVal where
  | null
  | str (s : String)
  | num (q : Rat)
deriving Repr, DecidableEq

/-- JavaScript truthiness of a `JVal`: `null`, `""` and `0` are falsy. -/
def jsTruthy : JVal → Bool
  | .null => false
  | .str s => s != ""
  | .num q => q != 0

/-- The guard `value === null || value === undefined || value === ''`. -/
def isNullOrEmpty : JVal → Bool
  | .null => true
  | .str s => s == ""
  | .num _ => false

/-- Decimal digits to a natural number. -/
def digitsToNat (ds : List Char) : Nat :=
  ds.foldl (fun a c => a * 10 + (c.toNat - 48)) 0

/-- `parseInt` on a string (radix 10): skip leading whitespace, optional
sign, then the leading digit run; `NaN` (here `none`) when no digit
follows. -/
def parseIntStr (s : String) : Option Int :=
  let l := s.data.dropWhile Char.isWhitespace
  let signed : Int × List Char :=
    match l with
    | '-' :: rest => (-1, rest)
    | '+' :: rest => (1, rest)
    | _ => (1, l)
  let ds := signed.2.takeWhile Char.isDigit
  if ds.isEmpty then none else some (signed.1 * (digitsToNat ds : Int))

/-- `parseFloat` on a string (plain decimals): optional sign, an integer
digit run, an optional fraction; `NaN` when neither part has a digit. -/
def parseFloatStr (s : String) : Option Rat :=
  let l := s.data.dropWhile Char.isWhitespace
  let signed : Rat × List Char :=
    match l with
    | '-' :: rest => (-1, rest)
    | '+' :: rest => (1, rest)
    | _ => (1, l)
  let intDigits := signed.2.takeWhile Char.isDigit
  let afterInt := signed.2.dropWhile Char.isDigit
  let fracDigits :=
    match afterInt with
    | '.' :: rest => rest.takeWhile Char.isDigit
    | _ => []
  if intDigits.isEmpty ∧ fracDigits.isEmpty then none
  else some (signed.1 *
    ((digitsToNat intDigits : Rat) + (digitsToNat fracDigits : Rat) / (10 ^ fracDigits.length)))

/-- `parseInt(value)` on a `JVal`: `null` stringifies to `"null"` (no
digits, `NaN`); a number stringifies and re-parses, which truncates it
toward zero. -/
def parseIntJS : JVal → Option Int
  | .null => none
  | .str s => parseIntStr s
  | .num q => some (if q < 0 then -((-q).floor) else q.floor)

/-- `parseFloat(value)` on a `JVal`. -/
def parseFloatJS : JVal → Option Rat
  | .null => none
  | .str s => parseFloatStr s
  | .num q => some q

/-- `validateVitalSign(value, min, max, fieldName, isInteger)`: absent
and empty values are valid (optional field); otherwise parse, reject
`NaN`, then range-check inclusively. -/
def Validators.validateVitalSign (value : JVal) (min max : Int)
    (fieldName : String) (isInteger : Bool) : VResult :=
  if isNullOrEmpty value then { valid := true, error := none }
  else
    let numValue : Option Rat :=
      if isInteger then (parseIntJS value).map (fun i => (i : Rat))
      else parseFloatJS value
    match numValue with
    | none => { valid := false, error := some (fieldName ++ " must be a number") }
    | some n =>
      if n < (min : Rat) ∨ (max : Rat) < n then
        { valid := false,
          error := some (fieldName ++ " must be between " ++ toString min ++
            " and " ++ toString max) }
      else { valid := true, error := none }

/-- The error strings a single-field result contributes to an error
accumulator (`errors.push(result.error)` under `if (!result.valid)`). -/
def VResult.errList (r : VResult) : List String :=
  if r.valid then [] else [r.error.getD ""]

/-- `'; '`-joining of accumulated messages (`errors.join('; ')`). -/
def joinSemicolon : List String → String
  | [] => ""
  | [x] => x
  | x :: xs => x ++ "; " ++ joinSemicolon xs

/-- `validateBloodPressure(systolic, diastolic)`: range-check each
present value, then the cross-field rule — when both are truthy and both
parse, systolic must strictly exceed diastolic. -/
def Validators.validateBloodPressure (systolic diastolic : JVal) : VResult :=
  let sysErrs :=
    if !isNullOrEmpty systolic then
      (Validators.validateVitalSign systolic 40 300 "Systolic BP" true).errList
    else []
  let diaErrs :=
    if !isNullOrEmpty diastolic then
      (Validators.validateVitalSign diastolic 20 200 "Diastolic BP" true).errList
    else []
  let crossErrs :=
    if jsTruthy systolic && jsTruthy diastolic then
      match parseIntJS systolic, parseIntJS diastolic with
      | some sys, some dia =>
        if sys ≤ dia then ["Systolic BP must be greater than Diastolic BP"] else []
      | _, _ => []
    else []
  let errors := sysErrs ++ diaErrs ++ crossErrs
  if errors.isEmpty then { valid := true, error := none }
  else { valid := false, error := some (joinSemicolon errors) }

/-- `validateTextLength(text, maxLength, fieldName, required)` for a
string value. -/
def Validators.validateTextLength (text : String) (maxLength : Nat)
    (fieldName : String) (required : Bool) : VResult :=
  if text = "" ∨ jsTrim text = "" then
    if required then { valid := false, error := some (fieldName ++ " is required") }
    else { valid := true, error := none }
  else if text.length > maxLength then
    { valid := false,
      error := some (fieldName ++ " must not exceed " ++ toString maxLength ++ " characters") }
  else { valid := true, error := none }

/-- The `vitalData` object the vital-signs form submits: six measurement
fields plus the (always string-valued, possibly absent) trimmed notes. -/
structure VitalData where
  blood_pressure_systolic : JVal
  blood_pressure_diastolic : JVal
  heart_rate : JVal
  temperature : JVal
  respiratory_rate : JVal
  oxygen_saturation : JVal
  notes : Option String
deriving Repr, DecidableEq

/-- The `{valid, errors}` object `validateVitalSigns` returns; `errors`
keeps the JavaScript object's key insertion order. -/
structure VitalsResult where
  valid : Bool
  errors : List (String × String)
deriving Repr, DecidableEq

/-- The entry an invalid single-field result contributes to the `errors`
object under `key`. -/
def VResult.keyed (r : VResult) (key : String) : List (String × String) :=
  if r.valid then [] else [(key, r.error.getD "")]

/-- `validateVitalSigns(vitalData)`: blood pressure always, each other
measurement only when truthy, the at-least-one-measurement rule, then
the notes length.  `valid` is `Object.keys(errors).length === 0`. -/
def Validators.validateVitalSigns (vitalData : VitalData) : VitalsResult :=
  let bpErrs :=
    (Validators.validateBloodPressure vitalData.blood_pressure_systolic
      vitalData.blood_pressure_diastolic).keyed "blood_pressure"
  let hrErrs :=
    if jsTruthy vitalData.heart_rate then
      (Validators.validateVitalSign vitalData.heart_rate 20 300 "Heart Rate" true).keyed
        "heart_rate"
    else []
  let tempErrs :=
    if jsTruthy vitalData.temperature then
      (Validators.validateVitalSign vitalData.temperature 30 45 "Temperature" false).keyed
        "temperature"
    else []
  let rrErrs :=
    if jsTruthy vitalData.respiratory_rate then
      (Validators.validateVitalSign vitalData.respiratory_rate 5 100 "Respiratory Rate" true).keyed
        "respiratory_rate"
    else []
  let oxErrs :=
    if jsTruthy vitalData.oxygen_saturation then
      (Validators.validateVitalSign vitalData.oxygen_saturation 0 100 "Oxygen Saturation" false).keyed
        "oxygen_saturation"
    else []
  let hasAnyValue :=
    jsTruthy vitalData.blood_pressure_systolic ||
    jsTruthy vitalData.blood_pressure_diastolic ||
    jsTruthy vitalData.heart_rate ||
    jsTruthy vitalData.temperature ||
    jsTruthy vitalData.respiratory_rate ||
    jsTruthy vitalData.oxygen_saturation
  let generalErrs :=
    if !hasAnyValue then
      [("general", "At least one vital sign measurement is required")]
    else []
  let notesErrs :=
    if jsTruthyStr vitalData.notes then
      (Validators.validateTextLength (vitalData.notes.getD "") 500 "Notes" false).keyed "notes"
    else []
  let errors := bpErrs ++ hrErrs ++ tempErrs ++ rrErrs ++ oxErrs ++ generalErrs ++ notesErrs
  { valid := errors.isEmpty, errors := errors }

/-! ## Helper lemmas -/

theorem slash_append_inj {s t : String} (h : "/" ++ s = "/" ++ t) : s = t := by
  have h1 := congrArg String.data h
  rw [String.data_append, String.data_append] at h1
  simp at h1
  exact String.ext h1

theorem jsTruthy_eq_false_of_isNullOrEmpty {v : JVal} (h : isNullOrEmpty v = true) :
    jsTruthy v = false := by
  cases v <;> simp_all [isNullOrEmpty, jsTruthy]

theorem validateVitalSign_of_isNullOrEmpty {v : JVal} (mn mx : Int) (f : String) (b : Bool)
    (h : isNullOrEmpty v = true) :
    Validators.validateVitalSign v mn mx f b = { valid := true, error := none } := by
  simp [Validators.validateVitalSign, h]

theorem validateBloodPressure_of_isNullOrEmpty {s d : JVal}
    (hs : isNullOrEmpty s = true) (hd : isNullOrEmpty d = true) :
    Validators.validateBloodPressure s d = { valid := true, error := none } := by
  simp [Validators.validateBloodPressure, hs, hd,
    jsTruthy_eq_false_of_isNullOrEmpty hs, jsTruthy_eq_false_of_isNullOrEmpty hd]

theorem foldl_setState_state {V O : Type} (render : StateMap V → O)
    (i : Inst V O) (ps : List (StateMap V)) :
    (ps.foldl (BaseComponent.setState render) i).state = ps.foldl mergeState i.state := by
  induction ps generalizing i with
  | nil => rfl
  | cons p ps ih => simp [List.foldl_cons, ih, BaseComponent.setState]

theorem foldl_setState_shadow {V O : Type} (render : StateMap V → O)
    (i : Inst V O) (ps : List (StateMap V)) (h : ps ≠ []) :
    (ps.foldl (BaseComponent.setState render) i).shadow =
      some (render (ps.foldl mergeState i.state)) := by
  induction ps generalizing i with
  | nil => exact absurd rfl h
  | cons p ps ih =>
    cases ps with
    | nil => simp [BaseComponent.setState]
    | cons q qs =>
      rw [List.foldl_cons, ih _ (by simp)]
      simp [BaseComponent.setState]

/-! ## Claim theorems -/

/-- C2: for every transport outcome, `ApiService.request` returns a
tagged result rather than raising: a thrown fetch error, a thrown parse
error or a non-ok status all come back as `{success: false, data: none,
error: some message}`, and only an ok response comes back as
`{success: true, data: some body, error: none}`.  Totality of the
function over every `Transport` value is the embedding of the no-throw
boundary. -/
theorem request_never_throws (t : Transport) :
    (∃ status body, t = Transport.response true status body ∧
      ApiService.request t = { success := true, data := some body, error := none }) ∨
    (∃ msg, ApiService.request t = { success := false, data := none, error := some msg }) := by
  cases t with
  | netError m => exact Or.inr ⟨m, rfl⟩
  | parseError m => exact Or.inr ⟨m, rfl⟩
  | response ok status body =>
    cases ok with
    | true => exact Or.inl ⟨status, body, rfl, rfl⟩
    | false => exact Or.inr ⟨httpErrorMessage status body, rfl⟩

/-- C4 counterexample: `setToken("")` stores a non-null credential
(`token = some ""`), yet `isAuthenticated()` — `!!this.token` — is
`false`, because the empty string is falsy.  This refutes "true iff a
non-null credential token is held". -/
theorem isAuthenticated_empty_token_counterexample :
    (ApiService.setToken { token := none, storage := none } (some "")).token = some "" ∧
    some "" ≠ (none : Option String) ∧
    ApiService.isAuthenticated (ApiService.setToken { token := none, storage := none }
      (some "")) = false := by
  decide

/-- C4 amended: at every point, `isAuthenticated()` is true iff a
non-null, non-empty token is held; immediately after `setToken(some v)`
it is true exactly when `v` is nonempty, and immediately after
`setToken(null)` or `logout()` it is false. -/
theorem isAuthenticated_iff_nonempty_token (st : ApiState) (v : String) :
    (ApiService.isAuthenticated st = true ↔ st.token ≠ none ∧ st.token ≠ some "") ∧
    (ApiService.isAuthenticated (ApiService.setToken st (some v)) = true ↔ v ≠ "") ∧
    ApiService.isAuthenticated (ApiService.setToken st none) = false ∧
    ApiService.isAuthenticated (ApiService.logout st) = false := by
  refine ⟨?_, ?_, rfl, rfl⟩
  · cases h : st.token with
    | none => simp [ApiService.isAuthenticated, h]
    | some w => simp [ApiService.isAuthenticated, h]
  · by_cases hv : v = "" <;>
      simp [ApiService.setToken, ApiService.isAuthenticated, hv]

/-- C5 counterexample: `setToken("")` removes the stored key (the empty
string is falsy), so a fresh gateway constructed from durable storage
reads `null`, not `""` — `getToken()` is `none`, breaking the round trip
for the token value `""`. -/
theorem token_roundtrip_empty_counterexample :
    ApiService.getToken (ApiService.freshInstance
      (ApiService.setToken { token := none, storage := none } (some "")).storage) = none ∧
    (none : Option String) ≠ some "" := by
  decide

/-- C5 amended: the `setToken` / fresh-instance round trip restores the
token for `null` and for every nonempty token string; only the empty
string (falsy, hence removed from storage and read back as `null`) is
excluded. -/
theorem token_roundtrip (st : ApiState) (t : Option String)
    (h : t = none ∨ ∃ v, t = some v ∧ v ≠ "") :
    ApiService.getToken (ApiService.freshInstance
      (ApiService.setToken st t).storage) = t := by
  rcases h with rfl | ⟨v, rfl, hv⟩
  · rfl
  · simp [ApiService.setToken, ApiService.freshInstance, ApiService.getToken, hv]

/-- C5 witness: the round trip at the concrete token `"tok123"`. -/
theorem token_roundtrip_witness :
    ApiService.getToken (ApiService.freshInstance
      (ApiService.setToken { token := none, storage := none } (some "tok123")).storage) =
      some "tok123" :=
  token_roundtrip { token := none, storage := none } (some "tok123")
    (Or.inr ⟨"tok123", rfl, by decide⟩)

/-- C6: a registration failure whose remote body carries the field-keyed
errors map `{username: 'Username already exists'}` comes back from
`request` as `{success: false, error: 'Validation failed'}` with `data`
absent: the `catch` branch returns only `{success, error}`, so the
structured map is dropped and `result.data.errors` in
`LoginComponent.handleRegister` is never populated. -/
theorem request_failure_drops_errors_map :
    ApiService.request (Transport.response false 400
      { error := some "Validation failed",
        errors := [("username", "Username already exists")] }) =
      { success := false, data := none, error := some "Validation failed" } ∧
    [("username", "Username already exists")] ≠ ([] : List (String × String)) := by
  decide

/-- Failures from `request` never carry a `data` field, whatever the
transport outcome was (general form of the defect behind C6). -/
theorem request_failure_data_none (t : Transport)
    (h : (ApiService.request t).success = false) :
    (ApiService.request t).data = none := by
  cases t with
  | netError m => rfl
  | parseError m => rfl
  | response ok status body =>
    cases ok with
    | true => exact absurd h (by simp [ApiService.request])
    | false => rfl

/-- C8: vitals with systolic `90` and diastolic `120` — each inside its
own range, as the first two conjuncts certify — fail validation with a
`blood_pressure` error citing the systolic-exceeds-diastolic rule. -/
theorem vitals_systolic_not_above_diastolic :
    Validators.validateVitalSign (.num 90) 40 300 "Systolic BP" true =
      { valid := true, error := none } ∧
    Validators.validateVitalSign (.num 120) 20 200 "Diastolic BP" true =
      { valid := true, error := none } ∧
    Validators.validateVitalSigns
      { blood_pressure_systolic := .num 90, blood_pressure_diastolic := .num 120,
        heart_rate := .null, temperature := .null, respiratory_rate := .null,
        oxygen_saturation := .null, notes := none } =
      { valid := false,
        errors := [("blood_pressure", "Systolic BP must be greater than Diastolic BP")] } := by
  decide

/-- C3: mount a component, then run any finite sequence of `setState`
calls; the rendered shadow subtree after the last call is exactly
`render` of the left fold of the shallow merges over the initial state,
and the internal state is that same merged state — full replacement each
cycle, no partial drift. -/
theorem setState_sequence_renders_merged_state {V O : Type} (render : StateMap V → O)
    (s0 : StateMap V) (ps : List (StateMap V)) :
    ((ps.foldl (BaseComponent.setState render)
        (BaseComponent.connectedCallback render
          { state := s0, shadow := none, log := [] })).shadow =
      some (render (ps.foldl mergeState s0))) ∧
    ((ps.foldl (BaseComponent.setState render)
        (BaseComponent.connectedCallback render
          { state := s0, shadow := none, log := [] })).state =
      ps.foldl mergeState s0) := by
  constructor
  · cases hps : ps with
    | nil => simp [BaseComponent.connectedCallback]
    | cons p qs =>
      rw [foldl_setState_shadow render _ _ (by simp)]
      rfl
  · rw [foldl_setState_state]
    rfl

/-- C10: after `disconnectedCallback` (which only calls `cleanup`), a
further `setState` still shallow-merges the partial into the state,
still calls `onStateChange` with the old and new state, still re-renders
the subtree and still re-attaches listeners — the lifecycle has no
mounted-state guard, so detaching rejects nothing. -/
theorem setState_after_disconnect {V O : Type} (render : StateMap V → O)
    (i : Inst V O) (p : StateMap V) :
    (BaseComponent.setState render (BaseComponent.disconnectedCallback i) p).state =
      mergeState i.state p ∧
    (BaseComponent.setState render (BaseComponent.disconnectedCallback i) p).shadow =
      some (render (mergeState i.state p)) ∧
    (BaseComponent.setState render (BaseComponent.disconnectedCallback i) p).log =
      i.log ++ [CompEvent.cleanedUp, CompEvent.stateChange i.state (mergeState i.state p),
        CompEvent.rendered, CompEvent.listenersAttached] := by
  refine ⟨rfl, rfl, ?_⟩
  simp [BaseComponent.setState, BaseComponent.disconnectedCallback]

/-- C9: when all six measurement fields are absent/null/empty (each
individually a valid optional value), `validateVitalSigns` still reports
`valid: false` with `errors.general = 'At least one vital sign
measurement is required'`, whatever the notes are. -/
theorem vitals_all_empty_general_error (vd : VitalData)
    (h1 : isNullOrEmpty vd.blood_pressure_systolic = true)
    (h2 : isNullOrEmpty vd.blood_pressure_diastolic = true)
    (h3 : isNullOrEmpty vd.heart_rate = true)
    (h4 : isNullOrEmpty vd.temperature = true)
    (h5 : isNullOrEmpty vd.respiratory_rate = true)
    (h6 : isNullOrEmpty vd.oxygen_saturation = true) :
    (Validators.validateVitalSigns vd).valid = false ∧
    (Validators.validateVitalSigns vd).errors.lookup "general" =
      some "At least one vital sign measurement is required" := by
  have e1 := jsTruthy_eq_false_of_isNullOrEmpty h1
  have e2 := jsTruthy_eq_false_of_isNullOrEmpty h2
  have e3 := jsTruthy_eq_false_of_isNullOrEmpty h3
  have e4 := jsTruthy_eq_false_of_isNullOrEmpty h4
  have e5 := jsTruthy_eq_false_of_isNullOrEmpty h5
  have e6 := jsTruthy_eq_false_of_isNullOrEmpty h6
  have hbp := validateBloodPressure_of_isNullOrEmpty h1 h2
  simp [Validators.validateVitalSigns, hbp, e1, e2, e3, e4, e5, e6, VResult.keyed]

/-- C9 witness: the all-null vital data object. -/
theorem vitals_all_empty_general_error_witness :
    (Validators.validateVitalSigns
      { blood_pressure_systolic := .null, blood_pressure_diastolic := .null,
        heart_rate := .null, temperature := .null, respiratory_rate := .null,
        oxygen_saturation := .null, notes := none }).valid = false ∧
    (Validators.validateVitalSigns
      { blood_pressure_systolic := .null, blood_pressure_diastolic := .null,
        heart_rate := .null, temperature := .null, respiratory_rate := .null,
        oxygen_saturation := .null, notes := none }).errors.lookup "general" =
      some "At least one vital sign measurement is required" :=
  vitals_all_empty_general_error
    { blood_pressure_systolic := .null, blood_pressure_diastolic := .null,
      heart_rate := .null, temperature := .null, respiratory_rate := .null,
      oxygen_saturation := .null, notes := none }
    (by decide) (by decide) (by decide) (by decide) (by decide) (by decide)

/-- C7 counterexample: registering with password `"weak"` and otherwise
valid fields is rejected locally, but the message shown is the
minimum-length rule, not the character-class rule the claim cites. -/
theorem weak_password_message_counterexample :
    LoginComponent.submitRegister "alice" "weak" "alice@example.com" "weak" =
      RegisterOutcome.localError "Password must be at least 8 characters" ∧
    "Password must be at least 8 characters" ≠
      "Password must contain uppercase, lowercase, digit, and special character" := by
  decide

/-- C7 amended: for every submission whose trimmed username and trimmed
email pass their local validators, password `"weak"` makes the
registration handler stop with the local error `'Password must be at
least 8 characters'` — a `setState` of the error, before
`apiService.register` is reached (the outcome is `localError`, not
`networkRegister`). -/
theorem weak_password_rejected_locally (usernameField emailField confirmField : String)
    (hu : (Validators.validateUsername (jsTrim usernameField)).valid = true)
    (he : (Validators.validateEmail (jsTrim emailField) true).valid = true) :
    LoginComponent.submitRegister usernameField "weak" emailField confirmField =
      RegisterOutcome.localError "Password must be at least 8 characters" := by
  have hune : jsTrim usernameField ≠ "" := by
    intro h
    rw [h] at hu
    exact absurd hu (by decide)
  have hene : jsTrim emailField ≠ "" := by
    intro h
    rw [h] at he
    exact absurd he (by decide)
  have hw : ("weak" : String) ≠ "" := by decide
  have hpv : Validators.validatePassword "weak" =
      { valid := false, error := some "Password must be at least 8 characters" } := by decide
  simp [LoginComponent.submitRegister, LoginComponent.handleRegister, hune, hene, hw,
    hu, he, hpv]

/-- C7 witness: concrete valid username and email with password
`"weak"`. -/
theorem weak_password_rejected_locally_witness :
    LoginComponent.submitRegister "bob_smith" "weak" "bob@clinic.org" "weak" =
      RegisterOutcome.localError "Password must be at least 8 characters" :=
  weak_password_rejected_locally "bob_smith" "bob@clinic.org" "weak"
    (by decide) (by decide)

/-- Resolution over the application route table when the looked-up
`routePath` has no entry: authenticated resolution always reaches the
`/404` callback; unauthenticated resolution redirects to `/login`
except for the public `register` segment, which also reaches `/404`. -/
theorem resolve_unregistered (authed : Bool) (path : Option String) (params : List String)
    (h : ("/" ++ path.getD "") ∉ appRoutes) :
    (authed = true →
      Router.resolve appRoutes authed path params = .invoked "/404" params) ∧
    (authed = false → path = some "register" →
      Router.resolve appRoutes authed path params = .invoked "/404" params) ∧
    (authed = false → path ≠ some "register" →
      Router.resolve appRoutes authed path params = .forceNavigate "/login") := by
  cases path with
  | none => exact absurd (by decide : ("/" ++ (none : Option String).getD "") ∈ appRoutes) h
  | some s =>
    have h' : ("/" ++ s) ∉ appRoutes := h
    by_cases hreg : s = "register"
    · subst hreg
      exact ⟨fun ha => by subst ha; rfl, fun ha _ => by subst ha; rfl,
        fun _ hne => absurd rfl hne⟩
    · have hs1 : s ≠ "" := by
        intro hse
        subst hse
        exact h (by decide)
      have hs2 : s ≠ "login" := by
        intro hse
        subst hse
        exact h (by decide)
      have hpub : s ∉ publicRoutes := by
        simp [publicRoutes, hs1, hs2, hreg]
      have n1 : "/" ++ s ≠ "/" := fun hh => h' (by rw [hh]; decide)
      have n2 : "/" ++ s ≠ "/login" := fun hh => h' (by rw [hh]; decide)
      have n3 : "/" ++ s ≠ "/dashboard" := fun hh => h' (by rw [hh]; decide)
      have n4 : "/" ++ s ≠ "/patients" := fun hh => h' (by rw [hh]; decide)
      have n5 : "/" ++ s ≠ "/404" := fun hh => h' (by rw [hh]; decide)
      refine ⟨fun ha => ?_, fun ha hr => absurd (Option.some.inj hr) hreg,
        fun ha hne => ?_⟩
      · subst ha
        simp [Router.resolve, appRoutes, hpub, n1, n2, n3, n4, n5]
      · subst ha
        simp [Router.resolve, hpub]

/-- C1 counterexample: `register` is a public segment with no entry in
the application route table, so navigating to `/register` with no
credential held invokes the `/404` not-found callback instead of
force-navigating to `/login` — the guard does not precede the fallback
on this path. -/
theorem unregistered_register_counterexample :
    Router.routePathOf "/register" ∉ appRoutes ∧
    ApiService.isAuthenticated { token := none, storage := none } = false ∧
    Router.handleRoute appRoutes { token := none, storage := none } "/register" =
      RouteAction.invoked "/404" [] := by
  decide

/-- C1 amended: for every navigated location whose `routePath` has no
entry in the application route table, resolution invokes the `/404`
callback whenever a credential is held; with no credential held it
force-navigates to `/login` (never reaching the not-found callback)
unless the primary segment is the public, unregistered `register`
segment, for which the `/404` callback is invoked instead. -/
theorem unknown_path_guard_and_fallback (api : ApiState) (slicedHash : String)
    (h : Router.routePathOf slicedHash ∉ appRoutes) :
    (ApiService.isAuthenticated api = true →
      Router.handleRoute appRoutes api slicedHash =
        RouteAction.invoked "/404" (Router.parsePath slicedHash).2) ∧
    (ApiService.isAuthenticated api = false →
      (Router.parsePath slicedHash).1 = some "register" →
      Router.handleRoute appRoutes api slicedHash =
        RouteAction.invoked "/404" (Router.parsePath slicedHash).2) ∧
    (ApiService.isAuthenticated api = false →
      (Router.parsePath slicedHash).1 ≠ some "register" →
      Router.handleRoute appRoutes api slicedHash = RouteAction.forceNavigate "/login") :=
  resolve_unregistered (ApiService.isAuthenticated api)
    (Router.parsePath slicedHash).1 (Router.parsePath slicedHash).2 h

/-- C1 witness: the unregistered path `/reports`, resolved once with a
credential held (not-found callback) and once without (login
redirect). -/
theorem unknown_path_guard_and_fallback_witness :
    Router.handleRoute appRoutes { token := some "abc", storage := some "abc" } "/reports" =
      RouteAction.invoked "/404" [] ∧
    Router.handleRoute appRoutes { token := none, storage := none } "/reports" =
      RouteAction.forceNavigate "/login" :=
  ⟨(unknown_path_guard_and_fallback { token := some "abc", storage := some "abc" }
      "/reports" (by decide)).1 (by decide),
   (unknown_path_guard_and_fallback { token := none, storage := none }
      "/reports" (by decide)).2.2 (by decide) (by decide)⟩
